import Mathlib

/-!
Verification development for `src/get_bridge_logs.py`, an interactive tool that
authenticates against a video-management API, resolves device and archiver
metadata for a device identifier, and downloads archiver log streams to local
files.

The Python source is shallowly embedded. Python dictionaries become
insertion-ordered association lists, `requests` responses become explicit
structures, exceptions and `sys.exit` become `Except` values carrying the exit
code and the messages printed on the way out, and the network is an oracle
function from request data to responses.
-/

namespace GetBridgeLogs

/-- A single quote character as a string, used when stating facts about the
Python `bytes` repr and about `KeyError` rendering. -/
def squote : String := String.mk [Char.ofNat 39]

/-- Keys of a Python dict, modelled as an insertion-ordered association list. -/
def dictKeys {V : Type} (d : List (String × V)) : List String := d.map Prod.fst

/-- Python dict lookup `d[k]`; `none` models a `KeyError`. -/
def dictLookup {V : Type} (d : List (String × V)) (k : String) : Option V :=
  (d.find? (fun p => p.1 == k)).map Prod.snd

/-- Python `d.update(\x7bk: v\x7d)`: replace the value in place when the key is
present, append the pair otherwise. -/
def dictUpdate {V : Type} (d : List (String × V)) (k : String) (v : V) :
    List (String × V) :=
  if (d.find? (fun p => p.1 == k)).isSome then
    d.map (fun p => if p.1 == k then (k, v) else p)
  else d ++ [(k, v)]

/-- A Python `datetime.datetime` value as used by the tool.  The `valid` field
mirrors the range invariants enforced by the `datetime` constructor
(`MINYEAR = 1`, `MAXYEAR = 9999`, fields bounded as documented). -/
structure Datetime where
  year : Nat
  month : Nat
  day : Nat
  hour : Nat
  minute : Nat
  second : Nat
  microsecond : Nat
  valid : 1 ≤ year ∧ year ≤ 9999 ∧ 1 ≤ month ∧ month ≤ 12 ∧ 1 ≤ day ∧
    day ≤ 31 ∧ hour ≤ 23 ∧ minute ≤ 59 ∧ second ≤ 59 ∧ microsecond ≤ 999999

/-- Fixed-width, zero-padded decimal rendering, most significant digit first.
This is exactly what `strftime` produces for the in-range field values of a
valid `datetime`: the directives used below are zero-padded to 4, 2, 2, 2, 2,
2 and 6 digits respectively. -/
def digitsFixed : Nat → Nat → List Char
  | 0, _ => []
  | w + 1, n => digitsFixed w (n / 10) ++ [Nat.digitChar (n % 10)]

/-- The 21-character result of formatting a datetime with the pattern used at
line 243 of the source (year, month, day, hour, minute, second, a dot, then
the 6 microsecond digits). -/
def strftimeEen (dt : Datetime) : List Char :=
  (digitsFixed 4 dt.year ++ digitsFixed 2 dt.month ++ digitsFixed 2 dt.day ++
   digitsFixed 2 dt.hour ++ digitsFixed 2 dt.minute ++ digitsFixed 2 dt.second) ++
  '.' :: digitsFixed 6 dt.microsecond

/-- Lines 242-243: `convert_dt_to_een_time` formats the datetime and keeps the
first 18 characters. -/
def convert_dt_to_een_time (dt : Datetime) : String :=
  String.mk ((strftimeEen dt).take 18)

/-- The example datetime from the spec: 2024-03-05 14:30:00.123456. -/
def sampleDt : Datetime :=
  ⟨2024, 3, 5, 14, 30, 0, 123456, by decide⟩

theorem digitChar_mod_isDigit (n : Nat) :
    (Nat.digitChar (n % 10)).isDigit = true :=
  (by decide : ∀ m, m < 10 → (Nat.digitChar m).isDigit = true) (n % 10)
    (Nat.mod_lt _ (by decide))

theorem digitsFixed_length (w : Nat) : ∀ n, (digitsFixed w n).length = w := by
  induction w with
  | zero => intro n; rfl
  | succ w ih => intro n; simp [digitsFixed, ih]

theorem digitsFixed_all_isDigit (w : Nat) :
    ∀ n, (digitsFixed w n).all Char.isDigit = true := by
  induction w with
  | zero => intro n; rfl
  | succ w ih =>
    intro n
    simp [digitsFixed, List.all_append, ih, digitChar_mod_isDigit]

theorem take18_shape (l1 l6 : List Char) (h : l1.length = 14) :
    (l1 ++ '.' :: l6).take 18 = l1 ++ '.' :: l6.take 3 := by
  have h1 : l1.take 18 = l1 := List.take_of_length_le (by omega)
  rw [List.take_append_eq_append_take, h, h1]
  rfl

/-- C3: the timestamp encoding is deterministic (a pure function of the
datetime) and, for every valid datetime, produces exactly 18 characters of the
form: 14 digits (year, month, day, hour, minute, second), a dot, then 3
fractional digits; the example datetime 2024-03-05 14:30:00.123456 encodes to
"20240305143000.123". -/
theorem convert_dt_to_een_time_format (dt : Datetime) :
    (convert_dt_to_een_time dt).toList.length = 18 ∧
    (∃ l1 l2 : List Char,
      (convert_dt_to_een_time dt).toList = l1 ++ '.' :: l2 ∧
      l1.length = 14 ∧ l2.length = 3 ∧
      l1.all Char.isDigit = true ∧ l2.all Char.isDigit = true) ∧
    convert_dt_to_een_time sampleDt = "20240305143000.123" := by
  have hL : (digitsFixed 4 dt.year ++ digitsFixed 2 dt.month ++
      digitsFixed 2 dt.day ++ digitsFixed 2 dt.hour ++ digitsFixed 2 dt.minute ++
      digitsFixed 2 dt.second).length = 14 := by
    simp [digitsFixed_length]
  have hshape : (convert_dt_to_een_time dt).toList =
      (digitsFixed 4 dt.year ++ digitsFixed 2 dt.month ++ digitsFixed 2 dt.day ++
       digitsFixed 2 dt.hour ++ digitsFixed 2 dt.minute ++ digitsFixed 2 dt.second) ++
      '.' :: (digitsFixed 6 dt.microsecond).take 3 := by
    show (strftimeEen dt).take 18 = _
    rw [strftimeEen, take18_shape _ _ hL]
  refine ⟨?_, ⟨_, _, hshape, hL, ?_, ?_, ?_⟩, ?_⟩
  · rw [hshape]
    simp [hL, List.length_take, digitsFixed_length]
  · simp [List.length_take, digitsFixed_length]
  · simp [List.all_append, digitsFixed_all_isDigit]
  · rw [List.all_eq_true]
    intro x hx
    exact List.all_eq_true.mp (digitsFixed_all_isDigit 6 dt.microsecond) x
      (List.take_subset _ _ hx)
  · decide

/-- The `DeviceInfo` dataclass, lines 27-35 of the source. -/
structure DeviceInfo where
  esn : String
  type : String
  name : String
  cluster : String
  disk_ips : List (String × String)
  archivers : List String
  archiver_states : List (String × String)
  deriving DecidableEq

/-- One element of the `data` array of the EsnDetails JSON response.  Every
field is optional: a missing key raises `KeyError` in the source. -/
structure EsnDetails where
  esn : Option String
  type : Option String
  name : Option String
  cluster : Option String
  disks_ips : Option (List (String × String))
  states : Option (List (String × List (String × String)))
  deriving DecidableEq

/-- The device-info HTTP response: status code plus the parsed JSON body
(`data` is `none` when that key is absent from the body). -/
structure InfoResponse where
  status_code : Nat
  data : Option (List EsnDetails)
  deriving DecidableEq

/-- Python exceptions raised while building the device record. -/
inductive PyExc where
  | indexError : PyExc
  | keyError : String → PyExc
  deriving DecidableEq

/-- A `sys.exit` outcome: the exit code plus the messages printed on the way
out. -/
structure ExitFailure where
  code : Nat
  messages : List String
  deriving DecidableEq

/-- Line 152: the device-info URL for a given ESN. -/
def nexusUrl (esn : String) : String :=
  "https://nexus.aus1hub1.eencloud.com/api/v2/EsnDetails/" ++ esn

/-- Python renders a `KeyError` for key `k` as the quoted key. -/
def keyErr (k : String) : String := squote ++ k ++ squote

/-- Line 164: the hint printed on a 403 response. -/
def vpnHint : String :=
  "Unauthorized. Please ensure you are connected to the EagleEye VPN."

/-- Line 161: the message printed on a non-ok response. -/
def infoFailMsg (status : Nat) : String :=
  "Unable to retrieve device info. Response: " ++ toString status

/-- Line 194: the message printed when indexing the device list fails. -/
def invalidEsnMsg : String := "Invalid result. Check ESN."

/-- Line 198: the message printed by the generic exception handler. -/
def genericExcMsg (esn e : String) : String :=
  "Exception raised when attempting to connect to " ++ nexusUrl esn ++ "\n" ++
  "Exception: " ++ e

/-- The `requests` library marks a response as ok exactly when the status code
is below 400. -/
def responseOk (status : Nat) : Bool := decide (status < 400)

/-- Lines 185-187: the loop building `a_states` from `states[a]["state"]` for
each archiver `a`, with the possible `KeyError` on the `states` key, on the
archiver key and on the inner `state` key. -/
def buildStates (statesOpt : Option (List (String × List (String × String)))) :
    List String → List (String × String) → Except PyExc (List (String × String))
  | [], acc => .ok acc
  | a :: rest, acc =>
    match statesOpt with
    | none => .error (.keyError (keyErr "states"))
    | some sts =>
      match dictLookup sts a with
      | none => .error (.keyError (keyErr a))
      | some inner =>
        match dictLookup inner "state" with
        | none => .error (.keyError (keyErr "state"))
        | some v => buildStates statesOpt rest (dictUpdate acc a v)

/-- Lines 169-191: parse the JSON body and build the device record, raising
`IndexError` on an empty `data` array and `KeyError` on any missing key. -/
def tryBuild (resp : InfoResponse) : Except PyExc DeviceInfo :=
  match resp.data with
  | none => .error (.keyError (keyErr "data"))
  | some [] => .error .indexError
  | some (r :: _) =>
    match r.esn with
    | none => .error (.keyError (keyErr "esn"))
    | some esn =>
      match r.type with
      | none => .error (.keyError (keyErr "type"))
      | some ty =>
        match r.name with
        | none => .error (.keyError (keyErr "name"))
        | some nm =>
          match r.cluster with
          | none => .error (.keyError (keyErr "cluster"))
          | some cl =>
            match r.disks_ips with
            | none => .error (.keyError (keyErr "disks_ips"))
            | some dips =>
              match buildStates r.states (dictKeys dips) [] with
              | .error e => .error e
              | .ok sts => .ok ⟨esn, ty, nm, cl, dips, dictKeys dips, sts⟩

/-- Lines 142-199: `get_device_info`.  The `sys.exit(1)` paths become
`ExitFailure` values carrying the printed messages: the non-ok branch prints
the status (plus the VPN hint on 403), the `IndexError` handler prints
`Invalid result. Check ESN.` and the generic handler prints the exception. -/
def get_device_info_fields (esn : String) (resp : InfoResponse) :
    Except ExitFailure DeviceInfo :=
  if responseOk resp.status_code then
    match tryBuild resp with
    | .ok di => .ok di
    | .error .indexError => .error ⟨1, [invalidEsnMsg]⟩
    | .error (.keyError e) => .error ⟨1, [genericExcMsg esn e]⟩
  else
    .error ⟨1, [infoFailMsg resp.status_code] ++
      (if resp.status_code == 403 then [vpnHint] else [])⟩

theorem dictKeys_dictUpdate {V : Type} (d : List (String × V)) (k : String)
    (v : V) (x : String) :
    x ∈ dictKeys (dictUpdate d k v) ↔ x ∈ dictKeys d ∨ x = k := by
  unfold dictUpdate
  split
  · next hfind =>
    have hk : k ∈ dictKeys d := by
      rcases List.find?_isSome.mp hfind with ⟨p, hp, hbeq⟩
      have : p.1 = k := by simpa using hbeq
      exact this ▸ List.mem_map_of_mem Prod.fst hp
    have hkeys : dictKeys (d.map fun p => if p.1 == k then (k, v) else p) =
        dictKeys d := by
      unfold dictKeys
      rw [List.map_map]
      apply List.map_congr_left
      intro p _
      simp only [Function.comp]
      split
      · next hbeq => simpa using (eq_of_beq hbeq).symm
      · rfl
    rw [hkeys]
    constructor
    · exact Or.inl
    · rintro (hx | rfl)
      · exact hx
      · exact hk
  · simp [dictKeys]

theorem buildStates_keys
    (statesOpt : Option (List (String × List (String × String)))) :
    ∀ (as : List String) (acc m : List (String × String)),
      buildStates statesOpt as acc = .ok m →
      ∀ x, x ∈ dictKeys m ↔ x ∈ dictKeys acc ∨ x ∈ as := by
  intro as
  induction as with
  | nil =>
    intro acc m h x
    simp only [buildStates] at h
    cases h
    simp
  | cons a rest ih =>
    intro acc m h x
    simp only [buildStates] at h
    split at h
    · cases h
    · split at h
      · cases h
      · split at h
        · cases h
        · next v _ =>
          have := ih (dictUpdate acc a v) m h x
          rw [this, dictKeys_dictUpdate]
          constructor
          · rintro ((hx | rfl) | hx)
            · exact Or.inl hx
            · exact Or.inr (List.mem_cons_self _ _)
            · exact Or.inr (List.mem_cons_of_mem _ hx)
          · rintro (hx | hx)
            · exact Or.inl (Or.inl hx)
            · rcases List.mem_cons.mp hx with rfl | hx
              · exact Or.inl (Or.inr rfl)
              · exact Or.inr hx

/-- C5: every device record produced by a successful `get_device_info` call
has the same key set in its archiver list (the keys of the disk-IP mapping)
and its archiver-state mapping: every archiver has exactly one state. -/
theorem resolve_keyset (esn : String) (resp : InfoResponse) (di : DeviceInfo)
    (h : get_device_info_fields esn resp = .ok di) :
    ∀ x, x ∈ dictKeys di.archiver_states ↔ x ∈ di.archivers := by
  unfold get_device_info_fields at h
  split at h
  · split at h
    · next di' heq =>
      cases h
      unfold tryBuild at heq
      split at heq
      · cases heq
      · cases heq
      · rename_i r tail hdata
        split at heq
        · cases heq
        · split at heq
          · cases heq
          · split at heq
            · cases heq
            · split at heq
              · cases heq
              · split at heq
                · cases heq
                · rename_i dips hdips
                  split at heq
                  · cases heq
                  · rename_i sts hbuild
                    cases heq
                    intro x
                    rw [buildStates_keys r.states (dictKeys dips) [] sts
                      hbuild x]
                    simp [dictKeys]
    · next heq => cases h
    · next e heq => cases h
  · cases h

/-- A well-formed device-info response used as a witness input. -/
def goodResp : InfoResponse :=
  ⟨200, some [⟨some "100bbc9c", some "bridge", some "br01", some "c1",
    some [("a1471", "10.0.0.1"), ("a1472", "10.0.0.2")],
    some [("a1471", [("state", "online")]), ("a1472", [("state", "offline")])]⟩]⟩

/-- The device record that `get_device_info` builds from `goodResp`. -/
def goodDevice : DeviceInfo :=
  ⟨"100bbc9c", "bridge", "br01", "c1",
   [("a1471", "10.0.0.1"), ("a1472", "10.0.0.2")], ["a1471", "a1472"],
   [("a1471", "online"), ("a1472", "offline")]⟩

theorem resolve_keyset_witness :
    get_device_info_fields "100bbc9c" goodResp = .ok goodDevice ∧
    ("a1471" ∈ dictKeys goodDevice.archiver_states ↔
      "a1471" ∈ goodDevice.archivers) :=
  ⟨rfl, resolve_keyset "100bbc9c" goodResp goodDevice rfl "a1471"⟩

/-- C6 amended: an empty `data` array makes `get_device_info` fail through the
`IndexError` handler (message `Invalid result. Check ESN.`, exit code 1) — the
NotFoundError path of the spec; and every failure of `get_device_info` is a
defined exit with code 1, never a propagated unhandled exception. -/
theorem resolve_empty_and_exit (esn : String) (resp : InfoResponse) :
    (responseOk resp.status_code = true → resp.data = some [] →
      get_device_info_fields esn resp = .error ⟨1, [invalidEsnMsg]⟩) ∧
    (∀ f, get_device_info_fields esn resp = .error f → f.code = 1) := by
  constructor
  · intro hok hdata
    unfold get_device_info_fields
    rw [hok, if_pos rfl]
    unfold tryBuild
    rw [hdata]
  · intro f hf
    unfold get_device_info_fields at hf
    split at hf
    · split at hf
      · cases hf
      · cases hf; rfl
      · cases hf; rfl
    · cases hf; rfl

theorem resolve_empty_and_exit_witness :
    responseOk 200 = true ∧
    get_device_info_fields "z" ⟨200, some []⟩ = .error ⟨1, [invalidEsnMsg]⟩ :=
  ⟨by decide, (resolve_empty_and_exit "z" ⟨200, some []⟩).1 (by decide) rfl⟩

/-- A response whose `data` array is malformed: its single entry is missing
every key. -/
def malformedResp : InfoResponse :=
  ⟨200, some [⟨none, none, none, none, none, none⟩]⟩

/-- C6 counterexample: a malformed (non-empty) `data` entry does not fail
through the NotFoundError path; it fails through the generic exception handler
with a different message, refuting the claim that every empty-or-malformed
`data` array yields `NotFoundError`. -/
theorem resolve_malformed_not_notfound :
    get_device_info_fields "100bbc9c" malformedResp =
      .error ⟨1, [genericExcMsg "100bbc9c" (keyErr "esn")]⟩ ∧
    genericExcMsg "100bbc9c" (keyErr "esn") ≠ invalidEsnMsg :=
  ⟨rfl, by decide⟩

/-- C8: a 403 from the device-info endpoint makes `get_device_info` fail with
exit code 1 (non-zero abort) and print the un-authorized message followed by
the VPN-connectivity hint; the hint message contains the substring VPN. -/
theorem resolve_403 (esn : String) (resp : InfoResponse)
    (h : resp.status_code = 403) :
    get_device_info_fields esn resp = .error ⟨1, [infoFailMsg 403, vpnHint]⟩ ∧
    (∀ f, get_device_info_fields esn resp = .error f →
      f.code ≠ 0 ∧ vpnHint ∈ f.messages) ∧
    ∃ i, ((vpnHint.toList.drop i).take 3) = ['V', 'P', 'N'] := by
  have h1 : get_device_info_fields esn resp =
      .error ⟨1, [infoFailMsg 403, vpnHint]⟩ := by
    unfold get_device_info_fields
    rw [h]
    rfl
  refine ⟨h1, ?_, 62, by decide⟩
  intro f hf
  rw [h1] at hf
  cases hf
  exact ⟨by decide, by simp⟩

/-- A concrete 403 response. -/
def resp403 : InfoResponse := ⟨403, none⟩

theorem resolve_403_witness :
    resp403.status_code = 403 ∧
    (get_device_info_fields "q" resp403 =
      .error ⟨1, [infoFailMsg 403, vpnHint]⟩ ∧
    (∀ f, get_device_info_fields "q" resp403 = .error f →
      f.code ≠ 0 ∧ vpnHint ∈ f.messages) ∧
    ∃ i, ((vpnHint.toList.drop i).take 3) = ['V', 'P', 'N']) :=
  ⟨rfl, resolve_403 "q" resp403 rfl⟩

/-- The byte value of the quote chosen by the CPython `bytes` repr: a single
quote, unless the bytes contain one and no double quote. -/
def bytesReprQuote (bs : List Nat) : Nat :=
  if bs.contains 39 && !(bs.contains 34) then 34 else 39

/-- CPython rendering of one byte inside `repr(bytes)`: escape the quote and
the backslash, render tab, newline and carriage return as two-character
escapes, other non-printable bytes in hex, printable ASCII as itself. -/
def bytesReprChar (q c : Nat) : List Char :=
  if c == q || c == 92 then ['\\', Char.ofNat c]
  else if c == 9 then ['\\', 't']
  else if c == 10 then ['\\', 'n']
  else if c == 13 then ['\\', 'r']
  else if c < 32 ∨ 127 ≤ c then
    ['\\', 'x', Nat.digitChar (c / 16), Nat.digitChar (c % 16)]
  else [Char.ofNat c]

/-- Python `str(line)` where `line` is a `bytes` object: the repr, a `b`
followed by the quoted escaped bytes. -/
def pythonBytesRepr (bs : List Nat) : String :=
  String.mk ('b' :: Char.ofNat (bytesReprQuote bs) ::
    ((bs.map (bytesReprChar (bytesReprQuote bs))).flatten ++
      [Char.ofNat (bytesReprQuote bs)]))

/-- Lines 270-271: the write loop `f.write(str(line) + "\n")` over all
streamed lines; the value is the full content written to the file. -/
def writeLines (lines : List (List Nat)) : String :=
  String.join (lines.map (fun l => pythonBytesRepr l ++ "\n"))

/-- The response to one streaming log request: status code, the lines yielded
by `iter_lines` (bytes each), and the raw content reported on failure. -/
structure LogResponse where
  status_code : Nat
  lines : List (List Nat)
  content : List Nat
  deriving DecidableEq

/-- The `requests.Session` object held by the retriever; `closed` records
whether the underlying session has been closed. -/
structure SessionObj where
  closed : Bool
  deriving DecidableEq

/-- The retriever object state used by `pull_logs`: the stored `auth_key` and
the session object created during authentication. -/
structure RetrieverSelf where
  auth_key : String
  session : SessionObj
  deriving DecidableEq

/-- One HTTP GET issued by `pull_logs` via the module-level `requests.get`
(line 260): URL, query parameters, cookies, streaming flag and timeout. -/
structure LogRequest where
  url : String
  params : List (String × String)
  cookies : List (String × String)
  stream : Bool
  timeout : Nat
  deriving DecidableEq

/-- Outcome of one category iteration: a file written at a path with given
content and recorded line count, or a reported failure carrying the status
code and the response body. -/
inductive CatOutcome where
  | written (path : String) (contents : String) (count : Nat)
  | failed (status : Nat) (content : List Nat)
  deriving DecidableEq

def CatOutcome.isWritten : CatOutcome → Bool
  | .written _ _ _ => true
  | .failed _ _ => false

/-- Python list indexing with negative-index wraparound; `none` models the
`IndexError` raised when the normalized index is out of range. -/
def pyNormIdx (len : Nat) (i : Int) : Int := if i < 0 then i + len else i

def pyIndex {α : Type} (xs : List α) (i : Int) : Option α :=
  if 0 ≤ pyNormIdx xs.length i ∧ pyNormIdx xs.length i < (xs.length : Int) then
    xs.get? (pyNormIdx xs.length i).toNat
  else none

/-- Line 250: the four log categories, iterated in this fixed order. -/
def categories : List String := ["bridge", "stream", "analog", "preview"]

/-- Line 258: the log endpoint for a given archiver. -/
def logUrl (archiver : String) : String :=
  "http://" ++ archiver ++ ".eagleeyenetworks.com:28080/query/camera_logs"

/-- Line 263: the output path, directly under `./bridge_logs`, named by device
ESN, archiver and category. -/
def logPath (esn archiver t : String) : String :=
  "./bridge_logs/" ++ esn ++ "." ++ archiver ++ "_" ++ t ++ ".log"

/-- One iteration of the category loop (lines 250-287): build the request,
query the network oracle, then either write the file (status 200) or report
the status and body. -/
def catStep (self : RetrieverSelf) (di : DeviceInfo)
    (archiver_name stS etS : String) (net : String → LogResponse)
    (t : String) : LogRequest × CatOutcome :=
  (⟨logUrl archiver_name,
    [("c", di.esn), ("t", stS), ("e", etS), ("q", "none"), ("l", t)],
    [("auth_key", self.auth_key), ("vbsadmin_sessionid", self.auth_key)],
    true, 240⟩,
   if (net t).status_code == 200 then
     .written (logPath di.esn archiver_name t) (writeLines (net t).lines)
       (net t).lines.length
   else .failed (net t).status_code (net t).content)

/-- Lines 227-287: `pull_logs`.  The start and end datetimes are converted,
then `di.archivers[a]` is indexed (raising `IndexError` before any request
when out of range), then the four categories are processed in order.  The
result is the list of issued requests together with the per-category
outcomes. -/
def pull_logs (self : RetrieverSelf) (di : DeviceInfo) (a : Int)
    (st et : Datetime) (net : String → LogResponse) :
    List LogRequest × Except PyExc (List CatOutcome) :=
  let stS := convert_dt_to_een_time st
  let etS := convert_dt_to_een_time et
  match pyIndex di.archivers a with
  | none => ([], .error .indexError)
  | some archiver_name =>
    ((categories.map (catStep self di archiver_name stS etS net)).map Prod.fst,
     .ok ((categories.map (catStep self di archiver_name stS etS net)).map
       Prod.snd))

/-- The per-category outcomes determined by the device, archiver and network
responses alone. -/
def expectedOutcomes (di : DeviceInfo) (archiver_name : String)
    (net : String → LogResponse) : List CatOutcome :=
  categories.map (fun t =>
    if (net t).status_code == 200 then
      .written (logPath di.esn archiver_name t) (writeLines (net t).lines)
        (net t).lines.length
    else .failed (net t).status_code (net t).content)

/-- Line 221 of the source tests the function object `os.path.exists` itself,
with no argument; a function object is always truthy in Python, so the test
`not os.path.exists` is always false. -/
def os_path_exists_noarg : Bool := true

def joinPath (a b : String) : String := a ++ "/" ++ b

/-- Lines 201-225: `create_dirs`, over an abstract filesystem given as the
list of existing directories; the result is the list of directories existing
afterwards.  The root directory is created when absent; the per-device
directory would only be created under the always-false no-argument test. -/
def create_dirs (script_dir : String) (existing : List String)
    (bridge_esn : String) : List String :=
  let root := joinPath script_dir "bridge_logs"
  let esnDir := joinPath root bridge_esn
  let afterRoot := if existing.contains root then existing
    else existing ++ [root]
  if !os_path_exists_noarg then afterRoot ++ [esnDir] else afterRoot

/-- A retriever object with a stored auth key, as it exists after
authentication. -/
def sampleSelf : RetrieverSelf := ⟨"key123", ⟨true⟩⟩

/-- A resolved device with one archiver. -/
def sampleDevice : DeviceInfo :=
  ⟨"100bbc9c", "bridge", "br01", "c1", [("a1471", "10.0.0.1")], ["a1471"],
   [("a1471", "online")]⟩

/-- A network oracle where the bridge and stream categories answer 200 and
the analog and preview categories answer 500. -/
def mixedNet : String → LogResponse := fun t =>
  if t == "bridge" || t == "stream" then ⟨200, [[104, 105]], []⟩
  else ⟨500, [], [101, 114, 114]⟩

theorem expectedOutcomes_eq (self : RetrieverSelf) (di : DeviceInfo)
    (archiver_name stS etS : String) (net : String → LogResponse) :
    (categories.map (catStep self di archiver_name stS etS net)).map Prod.snd =
      expectedOutcomes di archiver_name net := by
  simp only [expectedOutcomes, List.map_map]
  rfl

/-- C2: per-category isolation.  Under a valid archiver index the loop
produces one outcome per category in order, never aborting: a written file
for each status-200 response, and a reported failure carrying the status and
body for any other status; the number of written files equals the number of
status-200 categories and the number of reported failures equals the number
of other categories. -/
theorem pull_logs_per_category (self : RetrieverSelf) (di : DeviceInfo)
    (a : Int) (st et : Datetime) (net : String → LogResponse)
    (archiver_name : String)
    (h : pyIndex di.archivers a = some archiver_name) :
    (pull_logs self di a st et net).2 =
      .ok (expectedOutcomes di archiver_name net) ∧
    ((expectedOutcomes di archiver_name net).filter CatOutcome.isWritten).length
      = (categories.filter (fun t => (net t).status_code == 200)).length ∧
    ((expectedOutcomes di archiver_name net).filter
        (fun o => !o.isWritten)).length
      = (categories.filter (fun t => !((net t).status_code == 200))).length := by
  refine ⟨?_, ?_, ?_⟩
  · simp only [pull_logs, h]
    rw [expectedOutcomes_eq]
  · simp only [expectedOutcomes, categories, List.map, List.filter]
    cases hb : (net "bridge").status_code == 200 <;>
      cases hs : (net "stream").status_code == 200 <;>
      cases ha : (net "analog").status_code == 200 <;>
      cases hp : (net "preview").status_code == 200 <;>
      simp [hb, hs, ha, hp, CatOutcome.isWritten]
  · simp only [expectedOutcomes, categories, List.map, List.filter]
    cases hb : (net "bridge").status_code == 200 <;>
      cases hs : (net "stream").status_code == 200 <;>
      cases ha : (net "analog").status_code == 200 <;>
      cases hp : (net "preview").status_code == 200 <;>
      simp [hb, hs, ha, hp, CatOutcome.isWritten]

theorem pull_logs_per_category_witness :
    pyIndex sampleDevice.archivers 0 = some "a1471" ∧
    (pull_logs sampleSelf sampleDevice 0 sampleDt sampleDt mixedNet).2 =
      .ok (expectedOutcomes sampleDevice "a1471" mixedNet) ∧
    ((expectedOutcomes sampleDevice "a1471" mixedNet).filter
      CatOutcome.isWritten).length = 2 ∧
    ((expectedOutcomes sampleDevice "a1471" mixedNet).filter
      (fun o => !o.isWritten)).length = 2 := by
  have h := pull_logs_per_category sampleSelf sampleDevice 0 sampleDt sampleDt
    mixedNet "a1471" rfl
  exact ⟨rfl, h.1, by decide, by decide⟩

/-- The bytes of the ASCII line `hello`. -/
def helloBytes : List Nat := [104, 101, 108, 108, 111]

/-- A network oracle answering 200 with a single streamed line `hello` for
every category. -/
def helloNet : String → LogResponse := fun _ => ⟨200, [helloBytes], []⟩

/-- C1, at the failing input: one streamed line with bytes `hello`.  The loop
writes `str(line)` of a bytes object, which is the Python repr `b` plus the
quoted line — not the line itself — so the written newline-terminated line
differs from the input line even though the recorded count is 1.  The claimed
byte-for-byte round-trip fails. -/
theorem pull_logs_writes_bytes_repr :
    writeLines [helloBytes] = "b" ++ squote ++ "hello" ++ squote ++ "\n" ∧
    ("b" ++ squote ++ "hello" ++ squote ++ "\n" : String) ≠ "hello\n" ∧
    (pull_logs sampleSelf sampleDevice 0 sampleDt sampleDt helloNet).2 =
      .ok (categories.map (fun t =>
        CatOutcome.written (logPath "100bbc9c" "a1471" t)
          ("b" ++ squote ++ "hello" ++ squote ++ "\n") 1)) :=
  ⟨rfl, by decide, rfl⟩

/-- C7 counterexample: the archiver index -1 lies outside the range from 0 to
the archiver count, yet `pull_logs` does not fail at all: Python negative
indexing wraps around, all four network requests are issued and retrieval
proceeds normally — refuting the claim that every out-of-range index fails
fast with a validation error before any network call. -/
theorem pull_logs_negative_index :
    ¬(0 ≤ (-1 : Int) ∧
      (-1 : Int) < (sampleDevice.archivers.length : Int)) ∧
    (pull_logs sampleSelf sampleDevice (-1) sampleDt sampleDt mixedNet).1.length
      = 4 ∧
    (pull_logs sampleSelf sampleDevice (-1) sampleDt sampleDt mixedNet).2 =
      .ok (expectedOutcomes sampleDevice "a1471" mixedNet) :=
  ⟨by decide, by decide, rfl⟩

/-- C7 amended: `pull_logs` fails fast before issuing any network call
exactly for indices below the negated archiver count or at or above the
archiver count, and the failure is the `IndexError` of the list indexing at
line 248 (the source has no ValidationError); negative indices within range
wrap around per Python semantics and retrieval proceeds. -/
theorem pull_logs_index_out_of_range (self : RetrieverSelf) (di : DeviceInfo)
    (a : Int) (st et : Datetime) (net : String → LogResponse)
    (h : a < -(di.archivers.length : Int) ∨ (di.archivers.length : Int) ≤ a) :
    pull_logs self di a st et net = ([], .error .indexError) := by
  have hnone : pyIndex di.archivers a = none := by
    unfold pyIndex pyNormIdx
    split
    · next hneg =>
      rw [if_neg]
      rcases h with h | h
      · intro hc
        omega
      · intro hc
        omega
    · next hpos =>
      rw [if_neg]
      rcases h with h | h
      · intro hc
        omega
      · intro hc
        omega
  unfold pull_logs
  rw [hnone]

theorem pull_logs_index_out_of_range_witness :
    ((5 : Int) < -((sampleDevice.archivers.length : Nat) : Int) ∨
      ((sampleDevice.archivers.length : Nat) : Int) ≤ 5) ∧
    pull_logs sampleSelf sampleDevice 5 sampleDt sampleDt mixedNet =
      ([], .error .indexError) :=
  ⟨by decide,
   pull_logs_index_out_of_range sampleSelf sampleDevice 5 sampleDt sampleDt
     mixedNet (by decide)⟩

/-- C4 counterexample: starting from a filesystem where only the root exists,
`create_dirs` does not create the absent per-device directory (the
no-argument existence test is always truthy), and the path written by
`pull_logs` for the bridge category sits directly under `bridge_logs` — its
first 23 characters are not the per-device directory path followed by a
slash. -/
theorem create_dirs_no_subdir :
    create_dirs "." [joinPath "." "bridge_logs"] "100bbc9c" =
      [joinPath "." "bridge_logs"] ∧
    ¬(joinPath (joinPath "." "bridge_logs") "100bbc9c" ∈
      create_dirs "." [joinPath "." "bridge_logs"] "100bbc9c") ∧
    logPath "100bbc9c" "a1471" "bridge" =
      "./bridge_logs/100bbc9c.a1471_bridge.log" ∧
    (logPath "100bbc9c" "a1471" "bridge").toList.take 23 ≠
      (joinPath (joinPath "." "bridge_logs") "100bbc9c" ++ "/").toList :=
  ⟨rfl, by decide, rfl, by decide⟩

/-- C4 amended: `create_dirs` creates the `bridge_logs` root when absent and
leaves the filesystem unchanged when it exists (idempotent), but never
creates the per-device directory; and under a valid archiver index the
written files land at the flat `logPath` locations directly under the
`bridge_logs` root rather than inside a per-device directory. -/
theorem create_dirs_and_flat_path (sd : String) (existing : List String)
    (esn : String) (self : RetrieverSelf) (di : DeviceInfo) (a : Int)
    (st et : Datetime) (net : String → LogResponse) (archiver_name : String)
    (h : pyIndex di.archivers a = some archiver_name) :
    joinPath sd "bridge_logs" ∈ create_dirs sd existing esn ∧
    (joinPath sd "bridge_logs" ∈ existing →
      create_dirs sd existing esn = existing) ∧
    (joinPath (joinPath sd "bridge_logs") esn ∈ create_dirs sd existing esn ↔
      joinPath (joinPath sd "bridge_logs") esn ∈ existing) ∧
    (pull_logs self di a st et net).2 =
      .ok (expectedOutcomes di archiver_name net) := by
  have hlen1 : ("/" : String).length = 1 := rfl
  have hne : joinPath (joinPath sd "bridge_logs") esn ≠
      joinPath sd "bridge_logs" := by
    intro hc
    have hlen := congrArg String.length hc
    simp only [joinPath, String.length_append, hlen1] at hlen
    omega
  refine ⟨?_, ?_, ?_, ?_⟩
  · by_cases hmem : joinPath sd "bridge_logs" ∈ existing <;>
      simp [create_dirs, os_path_exists_noarg, hmem]
  · intro hmem
    simp [create_dirs, os_path_exists_noarg, hmem]
  · by_cases hmem : joinPath sd "bridge_logs" ∈ existing <;>
      simp [create_dirs, os_path_exists_noarg, hmem, hne]
  · simp only [pull_logs, h]
    rw [expectedOutcomes_eq]

theorem create_dirs_and_flat_path_witness :
    pyIndex sampleDevice.archivers 0 = some "a1471" ∧
    joinPath "." "bridge_logs" ∈ create_dirs "." [] "100bbc9c" ∧
    (pull_logs sampleSelf sampleDevice 0 sampleDt sampleDt mixedNet).2 =
      .ok (expectedOutcomes sampleDevice "a1471" mixedNet) :=
  ⟨rfl,
   (create_dirs_and_flat_path "." [] "100bbc9c" sampleSelf sampleDevice 0
     sampleDt sampleDt mixedNet "a1471" rfl).1,
   (create_dirs_and_flat_path "." [] "100bbc9c" sampleSelf sampleDevice 0
     sampleDt sampleDt mixedNet "a1471" rfl).2.2.2⟩

/-- Line 154: the statement `with self.session as s:` closes the underlying
session object when the block exits, at the end of `get_device_info`. -/
def sessionAfterWith (s : SessionObj) : SessionObj := { s with closed := true }

/-- C10: `pull_logs` never touches the session object: its entire result is
unchanged under any replacement of the session (in particular a closed one),
every issued request carries exactly the two cookies `auth_key` and
`vbsadmin_sessionid`, both set to the stored auth key, and the session is
indeed closed by the `with` block of `get_device_info` before `pull_logs`
runs. -/
theorem pull_logs_session_free (k : String) (s sAlt : SessionObj)
    (di : DeviceInfo) (a : Int) (st et : Datetime)
    (net : String → LogResponse) :
    pull_logs ⟨k, s⟩ di a st et net = pull_logs ⟨k, sAlt⟩ di a st et net ∧
    (pull_logs ⟨k, s⟩ di a st et net).1.map LogRequest.cookies =
      (pull_logs ⟨k, s⟩ di a st et net).1.map
        (fun _ => [("auth_key", k), ("vbsadmin_sessionid", k)]) ∧
    (sessionAfterWith s).closed = true := by
  refine ⟨rfl, ?_, rfl⟩
  unfold pull_logs
  cases hidx : pyIndex di.archivers a with
  | none => rfl
  | some archiver_name => simp [categories, catStep]

/-- The class-attribute slot of the `DeviceInfo` dataclass: line 172 binds
`di` to the class object itself, so lines 173-189 assign the parsed fields
onto class attributes shared by every call; `none` models the initial state
in which the annotated attributes have no values. -/
structure ResolverState where
  deviceInfoClass : Option DeviceInfo
  deriving DecidableEq

/-- The function `get_device_info` with the class-level effect: on success all fields of
the class object are overwritten with the values parsed from this response,
and the value returned to the caller is an alias of the class object. -/
def get_device_info_onClass (st : ResolverState) (esn : String)
    (resp : InfoResponse) : Except ExitFailure ResolverState :=
  match get_device_info_fields esn resp with
  | .error f => .error f
  | .ok di => .ok ⟨some di⟩

/-- Observing a record handed out by `get_device_info` at a later state:
since the record aliases the class object, the observation reads the current
class attributes. -/
def derefClass (st : ResolverState) : Option DeviceInfo := st.deviceInfoClass

/-- A device-info response with ESN `esnA`. -/
def respA : InfoResponse :=
  ⟨200, some [⟨some "esnA", some "bridge", some "nA", some "cA",
    some [("a1", "ip1")], some [("a1", [("state", "online")])]⟩]⟩

/-- A second device-info response with ESN `esnB`. -/
def respB : InfoResponse :=
  ⟨200, some [⟨some "esnB", some "bridge", some "nB", some "cB",
    some [("a2", "ip2")], some [("a2", [("state", "offline")])]⟩]⟩

/-- C9, at the failing input: two successive resolutions.  Right after the
first call the shared record shows `esnA`, but after the second call the very
record returned by the first call (an alias of the class object) shows
`esnB`: the record is mutated by the later call, refuting per-call freshness
and immutability. -/
theorem device_record_aliasing (st0 : ResolverState) :
    ∃ st1 st2 : ResolverState,
      get_device_info_onClass st0 "esnA" respA = .ok st1 ∧
      get_device_info_onClass st1 "esnB" respB = .ok st2 ∧
      (derefClass st1).map DeviceInfo.esn = some "esnA" ∧
      (derefClass st2).map DeviceInfo.esn = some "esnB" ∧
      (some "esnB" : Option String) ≠ some "esnA" :=
  ⟨⟨some ⟨"esnA", "bridge", "nA", "cA", [("a1", "ip1")], ["a1"],
      [("a1", "online")]⟩⟩,
   ⟨some ⟨"esnB", "bridge", "nB", "cB", [("a2", "ip2")], ["a2"],
      [("a2", "offline")]⟩⟩,
   rfl, rfl, rfl, rfl, by decide⟩

end GetBridgeLogs
